import Mathlib

/-!
# Verification of the saltyrtc-client signaling core

Shallow embedding of the SaltyRTC client signaling core
(`src/boxes.rs`, `src/protocol/mod.rs`, `src/protocol/types.rs`)
together with the supporting data model.  The modules `protocol/cookie.rs`,
`protocol/csn.rs`, `protocol/nonce.rs`, `protocol/context.rs`,
`protocol/state.rs`, `protocol/messages.rs`, `crypto.rs` and `errors.rs`
are not part of the sources; the corresponding definitions are modelled
from the specification and are marked as such in their doc comments.

Machine integers (u8, u16, u32) are modelled as `Nat`; well-formedness
bounds are stated explicitly where they matter.  Cryptographic box
sealing/opening and msgpack serialization are external collaborators of
the core and are modelled symbolically (a sealed body records the message,
the keys and the nonce that produced it; opening succeeds exactly when the
matching keys and nonce are supplied).
-/

deriving instance DecidableEq for Except

namespace Salty

/-- Modelled from the spec: a Cookie is 16 random bytes (data model, §3).
`cookie.rs` is not in the sources. -/
structure Cookie where
  bytes : List Nat
deriving DecidableEq, Repr

/-- Modelled from the spec (§4.1, `csn.rs` is not in the sources): a combined
sequence number is a pair (overflow: u16, sequence: u32). -/
structure Csn where
  overflow : Nat
  sequence : Nat
deriving DecidableEq, Repr

/-- Modelled from the spec (§4.1): total order on CSNs is lexicographic on
(overflow, sequence). -/
def Csn.lt (a b : Csn) : Prop :=
  a.overflow < b.overflow ∨ (a.overflow = b.overflow ∧ a.sequence < b.sequence)

instance : DecidablePred (fun p : Csn × Csn => Csn.lt p.1 p.2) :=
  fun _ => by unfold Csn.lt; infer_instance

instance (a b : Csn) : Decidable (Csn.lt a b) := by unfold Csn.lt; infer_instance

/-- Modelled from the spec (§4.1): increment; sequence += 1; on wrap to 0,
overflow += 1; fails with `CsnOverflow` if overflow would exceed 0xFFFF. -/
def Csn.increment (c : Csn) : Option Csn :=
  if c.sequence < 0xFFFFFFFF then some ⟨c.overflow, c.sequence + 1⟩
  else if c.overflow < 0xFFFF then some ⟨c.overflow + 1, 0⟩
  else none

/-- From `protocol/types.rs`: a 1-byte address (`struct Address(pub u8)`). -/
structure Address where
  val : Nat
deriving DecidableEq, Repr

/-- From `protocol/types.rs`: `Address::is_server`. -/
def Address.is_server (a : Address) : Bool := a.val == 0x00

/-- From `protocol/types.rs`: `Address::is_unknown`. -/
def Address.is_unknown (a : Address) : Bool := a.val == 0x00

/-- From `protocol/types.rs`: `Address::is_initiator`. -/
def Address.is_initiator (a : Address) : Bool := a.val == 0x01

/-- From `protocol/types.rs`: `Address::is_responder`. -/
def Address.is_responder (a : Address) : Bool := a.val ≥ 0x02

/-- A lowercase hex digit character (0-9 then a-f), used by the `{:#04x}`
display formats. -/
def hexDigitChar (n : Nat) : Char :=
  if n < 10 then Char.ofNat (48 + n) else Char.ofNat (87 + n)

/-- Two-digit lowercase hex of a byte (the `{:02x}` part of `{:#04x}`). -/
def hex2 (n : Nat) : String :=
  String.mk [hexDigitChar (n / 16 % 16), hexDigitChar (n % 16)]

/-- From `protocol/types.rs`: `Display for Address` prints `Address({:#04x})`. -/
def Address.display (a : Address) : String :=
  "Address(0x" ++ hex2 a.val ++ ")"

/-- Modelled from the spec (§6 frame layout; `nonce.rs` is not in the sources):
a 24-byte wire nonce: cookie(16) ‖ src(1) ‖ dst(1) ‖ overflow(2 BE) ‖
sequence(4 BE). -/
structure Nonce where
  cookie : Cookie
  source : Address
  destination : Address
  csn : Csn
deriving DecidableEq, Repr

/-- Big-endian 2-byte encoding of a u16. -/
def be2 (n : Nat) : List Nat := [n / 256 % 256, n % 256]

/-- Big-endian 4-byte encoding of a u32. -/
def be4 (n : Nat) : List Nat :=
  [n / 2 ^ 24 % 256, n / 2 ^ 16 % 256, n / 256 % 256, n % 256]

/-- Modelled from the spec (§4.2/§6): encode a nonce into its 24 wire bytes. -/
def Nonce.into_bytes (n : Nonce) : List Nat :=
  n.cookie.bytes ++ [n.source.val, n.destination.val]
    ++ be2 n.csn.overflow ++ be4 n.csn.sequence

/-- Modelled from the spec (§4.2): decode a nonce from 24 bytes; fails with
`Decode("cannot decode nonce")` if the input is shorter than 24 bytes. -/
def Nonce.from_bytes (bs : List Nat) : Except String Nonce :=
  if bs.length < 24 then Except.error "cannot decode nonce"
  else Except.ok
    { cookie := ⟨bs.take 16⟩
      source := ⟨bs.getD 16 0⟩
      destination := ⟨bs.getD 17 0⟩
      csn :=
        ⟨bs.getD 18 0 * 256 + bs.getD 19 0,
         bs.getD 20 0 * 2 ^ 24 + bs.getD 21 0 * 2 ^ 16
           + bs.getD 22 0 * 256 + bs.getD 23 0⟩ }

/-- Well-formedness of a nonce as a 24-byte wire value: the cookie holds 16
bytes and all fields are within their machine-integer ranges. -/
def Nonce.wf (n : Nonce) : Prop :=
  n.cookie.bytes.length = 16 ∧ (∀ b ∈ n.cookie.bytes, b < 256) ∧
    n.source.val < 256 ∧ n.destination.val < 256 ∧
    n.csn.overflow < 2 ^ 16 ∧ n.csn.sequence < 2 ^ 32

instance (n : Nonce) : Decidable n.wf := by unfold Nonce.wf; infer_instance

/-- From `src/boxes.rs`: the error kind produced by the frame codec
(`ErrorKind::Decode`); `errors.rs` itself is not in the sources. -/
inductive FrameError where
  | Decode (msg : String)
deriving DecidableEq, Repr

/-- From `src/boxes.rs`: `NONCEBYTES` of the crypto box (24). -/
def NONCEBYTES : Nat := 24

/-- From `src/boxes.rs`: a byte box is message bytes plus a nonce. -/
structure ByteBox where
  bytes : List Nat
  nonce : Nonce
deriving DecidableEq, Repr

/-- From `src/boxes.rs`: `ByteBox::new`. -/
def ByteBox.new (bytes : List Nat) (nonce : Nonce) : ByteBox :=
  ⟨bytes, nonce⟩

/-- From `src/boxes.rs`: `ByteBox::from_slice`.  Requires strictly more than
`NONCEBYTES` bytes, decodes the nonce from the first 24 bytes and keeps the
rest as the body. -/
def ByteBox.from_slice (bytes : List Nat) : Except FrameError ByteBox :=
  if bytes.length ≤ NONCEBYTES then Except.error (FrameError.Decode "message is too short")
  else
    match Nonce.from_bytes (bytes.take 24) with
    | Except.ok nonce => Except.ok (ByteBox.new (bytes.drop 24) nonce)
    | Except.error _ => Except.error (FrameError.Decode "cannot decode nonce")

/-- From `src/boxes.rs`: `ByteBox::into_bytes` concatenates the nonce bytes
and the body bytes. -/
def ByteBox.into_bytes (b : ByteBox) : List Nat :=
  b.nonce.into_bytes ++ b.bytes

/-- From `protocol/types.rs`: the role of a peer. -/
inductive Role where
  | Initiator
  | Responder
deriving DecidableEq, Repr

/-- From `protocol/types.rs`: `Display for Role`. -/
def Role.display : Role → String
  | Role.Initiator => "Initiator"
  | Role.Responder => "Responder"

/-- From `protocol/types.rs`: a peer identity. -/
inductive Identity where
  | Unknown
  | Initiator
  | Responder (id : Nat)
  | Server
deriving DecidableEq, Repr

/-- From `protocol/types.rs`: `Display for Identity` (lowercase words). -/
def Identity.display : Identity → String
  | Identity.Unknown => "unknown"
  | Identity.Initiator => "initiator"
  | Identity.Responder id => "responder " ++ Nat.repr id
  | Identity.Server => "server"

/-- From `protocol/types.rs`: `From<Identity> for Address` (Unknown and Server
map to 0x00; the source asserts a responder id above 0x01). -/
def Identity.toAddress : Identity → Address
  | Identity.Unknown => ⟨0x00⟩
  | Identity.Server => ⟨0x00⟩
  | Identity.Initiator => ⟨0x01⟩
  | Identity.Responder id => ⟨id⟩

/-- From `protocol/types.rs`: a client identity (Identity minus Server). -/
inductive ClientIdentity where
  | Unknown
  | Initiator
  | Responder (id : Nat)
deriving DecidableEq, Repr

/-- From `protocol/types.rs`: `Display for ClientIdentity` (capitalized;
responders print as `Responder[{:#04x}]`). -/
def ClientIdentity.display : ClientIdentity → String
  | ClientIdentity.Unknown => "Unknown"
  | ClientIdentity.Initiator => "Initiator"
  | ClientIdentity.Responder id => "Responder[0x" ++ hex2 id ++ "]"

/-- From `protocol/types.rs`: `From<ClientIdentity> for Address` (the source
asserts a responder id above 0x01). -/
def ClientIdentity.toAddress : ClientIdentity → Address
  | ClientIdentity.Unknown => ⟨0x00⟩
  | ClientIdentity.Initiator => ⟨0x01⟩
  | ClientIdentity.Responder id => ⟨id⟩

/-- Modelled from the spec (§3; `crypto.rs` is not in the sources): a KeyStore
is an owned keypair.  The key material is symbolic: a keypair is identified by
its secret and public parts. -/
structure KeyStore where
  sk : Nat
  pk : Nat
deriving DecidableEq, Repr

/-- Modelled from the spec: `KeyStore::public_key`. -/
def KeyStore.public_key (k : KeyStore) : Nat := k.pk

/-- Modelled from the spec (§3): an AuthToken is a 32-byte shared secret,
modelled symbolically as a number. -/
abbrev AuthToken := Nat

/-- Modelled from the spec (§4.3; `messages.rs` is not in the sources): the
body of a `client-auth` message. -/
structure ClientAuth where
  your_cookie : Cookie
  subprotocols : List String
  ping_interval : Nat
  your_key : Option Nat
deriving DecidableEq, Repr

/-- Modelled from the spec (§4.3): the body of a `server-auth` message. -/
structure ServerAuth where
  your_cookie : Cookie
  signed_keys : Option Nat
  responders : Option (List Address)
  initiator_connected : Option Bool
deriving DecidableEq, Repr

/-- Modelled from the spec (§3/§4.3): the tagged union of signaling messages. -/
inductive Message where
  | ServerHello (key : Nat)
  | ClientHello (key : Nat)
  | ClientAuth (msg : ClientAuth)
  | ServerAuth (msg : ServerAuth)
  | NewResponder (id : Address)
  | DropResponder (id : Address)
  | SendError (id : Nat)
  | Token (key : Nat)
  | Key (key : Nat)
deriving DecidableEq, Repr

/-- Modelled from the spec (§4.3): the `type` discriminator string of each
message variant. -/
def Message.get_type : Message → String
  | Message.ServerHello _ => "server-hello"
  | Message.ClientHello _ => "client-hello"
  | Message.ClientAuth _ => "client-auth"
  | Message.ServerAuth _ => "server-auth"
  | Message.NewResponder _ => "new-responder"
  | Message.DropResponder _ => "drop-responder"
  | Message.SendError _ => "send-error"
  | Message.Token _ => "token"
  | Message.Key _ => "key"

/-- Modelled from the spec (§7; `errors.rs` is not in the sources): the
signaling error taxonomy. -/
inductive SignalingError where
  | Decode (msg : String)
  | Decrypt (msg : String)
  | InvalidNonce (msg : String)
  | InvalidMessage (msg : String)
  | InvalidStateTransition (msg : String)
  | Protocol (msg : String)
  | CsnOverflow
  | Crash (msg : String)
deriving DecidableEq, Repr

/-- The symbolic body of a frame: either a plaintext-encoded message, a
public-key box, or a secret-key box.  A sealed body records the message, the
keys and the nonce used to seal it; opening succeeds exactly when the matching
keys and the carried nonce are supplied (this models the external NaCl
primitives of `crypto.rs`, which is not in the sources). -/
inductive Body where
  | plain (msg : Message)
  | pubkeyEnc (msg : Message) (senderPk recipientPk : Nat) (nonce : Nonce)
  | secretEnc (msg : Message) (token : AuthToken) (nonce : Nonce)
deriving DecidableEq, Repr

/-- Symbolic counterpart of `ByteBox` from `src/boxes.rs`, used by the
signaling layer: the body bytes are kept symbolic instead of raw bytes. -/
structure BBox where
  body : Body
  nonce : Nonce
deriving DecidableEq, Repr

/-- Symbolic counterpart of `OpenBox` from `src/boxes.rs`:
an unencrypted message plus a nonce. -/
structure OBox where
  message : Message
  nonce : Nonce
deriving DecidableEq, Repr

/-- From `src/boxes.rs`: `OpenBox::encode` (plaintext encoding). -/
def OBox.encode (o : OBox) : BBox :=
  ⟨Body.plain o.message, o.nonce⟩

/-- From `src/boxes.rs`: `OpenBox::encrypt` seals the message with our
keystore for `other_key`, under the box nonce. -/
def OBox.encrypt (o : OBox) (keystore : KeyStore) (other_key : Nat) : BBox :=
  ⟨Body.pubkeyEnc o.message keystore.pk other_key o.nonce, o.nonce⟩

/-- From `src/boxes.rs`: `OpenBox::encrypt_token` seals the message with the
auth token, under the box nonce. -/
def OBox.encrypt_token (o : OBox) (auth_token : AuthToken) : BBox :=
  ⟨Body.secretEnc o.message auth_token o.nonce, o.nonce⟩

/-- From `src/boxes.rs`: `ByteBox::decode`; parsing non-plaintext bytes as a
message fails with `Decode("cannot decode message payload")`. -/
def BBox.decode (b : BBox) : Except SignalingError OBox :=
  match b.body with
  | Body.plain msg => Except.ok ⟨msg, b.nonce⟩
  | _ => Except.error (SignalingError.Decode "cannot decode message payload")

/-- From `src/boxes.rs`: `ByteBox::decrypt` opens a public-key box with our
keystore and the sender's public key; any failure is chained to
`Decode("cannot decode message payload")`. -/
def BBox.decrypt (b : BBox) (keystore : KeyStore) (other_key : Nat) :
    Except SignalingError OBox :=
  match b.body with
  | Body.pubkeyEnc msg senderPk recipientPk n =>
    if senderPk = other_key ∧ recipientPk = keystore.pk ∧ n = b.nonce then
      Except.ok ⟨msg, b.nonce⟩
    else Except.error (SignalingError.Decode "cannot decode message payload")
  | _ => Except.error (SignalingError.Decode "cannot decode message payload")

/-- Modelled from the spec (§3; `state.rs` is not in the sources): the
signaling-level state. -/
inductive SignalingState where
  | ServerHandshake
  | PeerHandshake
  | Task
deriving DecidableEq, Repr

/-- Debug formatting of `SignalingState` (the `{:?}` format). -/
def SignalingState.debugStr : SignalingState → String
  | SignalingState.ServerHandshake => "ServerHandshake"
  | SignalingState.PeerHandshake => "PeerHandshake"
  | SignalingState.Task => "Task"

/-- Modelled from the spec (§3): the per-peer server-handshake sub-state. -/
inductive ServerHandshakeState where
  | New
  | ClientInfoSent
  | Done
  | Failure (reason : String)
deriving DecidableEq, Repr

/-- Debug formatting of `ServerHandshakeState` (the `{:?}` format). -/
def ServerHandshakeState.debugStr : ServerHandshakeState → String
  | ServerHandshakeState.New => "New"
  | ServerHandshakeState.ClientInfoSent => "ClientInfoSent"
  | ServerHandshakeState.Done => "Done"
  | ServerHandshakeState.Failure r => "Failure(\"" ++ r ++ "\")"

/-- Modelled from the spec (§4.6.c): handshake sub-state of the initiator as
tracked by a responder. -/
inductive InitiatorHandshakeState where
  | New
  | KeySent
  | KeyReceived
  | AuthReceived
  | Done
deriving DecidableEq, Repr

/-- Debug formatting of `InitiatorHandshakeState` (the `{:?}` format). -/
def InitiatorHandshakeState.debugStr : InitiatorHandshakeState → String
  | InitiatorHandshakeState.New => "New"
  | InitiatorHandshakeState.KeySent => "KeySent"
  | InitiatorHandshakeState.KeyReceived => "KeyReceived"
  | InitiatorHandshakeState.AuthReceived => "AuthReceived"
  | InitiatorHandshakeState.Done => "Done"

/-- Modelled from the spec (§4.6.c): handshake sub-state of a responder as
tracked by the initiator. -/
inductive ResponderHandshakeState where
  | New
  | TokenReceived
  | KeyReceived
  | AuthReceived
  | Done
deriving DecidableEq, Repr

/-- Debug formatting of `ResponderHandshakeState` (the `{:?}` format). -/
def ResponderHandshakeState.debugStr : ResponderHandshakeState → String
  | ResponderHandshakeState.New => "New"
  | ResponderHandshakeState.TokenReceived => "TokenReceived"
  | ResponderHandshakeState.KeyReceived => "KeyReceived"
  | ResponderHandshakeState.AuthReceived => "AuthReceived"
  | ResponderHandshakeState.Done => "Done"

/-- Modelled from the spec (§3; `context.rs` is not in the sources): a cookie
pair (ours fixed, theirs learned from the first validated frame). -/
structure CookiePair where
  ours : Cookie
  theirs : Option Cookie
deriving DecidableEq, Repr

/-- Modelled from the spec (§3): a CSN pair (ours for outbound frames, theirs
learned from the first validated frame). -/
structure CsnPair where
  ours : Csn
  theirs : Option Csn
deriving DecidableEq, Repr

/-- Modelled from the spec (§3): the server peer context. -/
structure ServerContext where
  handshake_state : ServerHandshakeState
  permanent_key : Option Nat
  session_key : Option Nat
  cookie_pair : CookiePair
  csn_pair : CsnPair
deriving DecidableEq, Repr

/-- Modelled from the spec: `ServerContext::new`, parametrized by the random
draws (our fresh cookie and initial CSN). -/
def ServerContext.new (ourCookie : Cookie) (ourCsn : Csn) : ServerContext :=
  { handshake_state := ServerHandshakeState.New
    permanent_key := none
    session_key := none
    cookie_pair := ⟨ourCookie, none⟩
    csn_pair := ⟨ourCsn, none⟩ }

/-- Modelled from the spec (§3): the initiator peer context kept by a
responder. -/
structure InitiatorContext where
  handshake_state : InitiatorHandshakeState
  permanent_key : Nat
  session_key : Option Nat
  cookie_pair : CookiePair
  csn_pair : CsnPair
deriving DecidableEq, Repr

/-- Modelled from the spec: `InitiatorContext::new`, parametrized by the
random draws (our fresh cookie and initial CSN). -/
def InitiatorContext.new (pubkey : Nat) (ourCookie : Cookie) (ourCsn : Csn) :
    InitiatorContext :=
  { handshake_state := InitiatorHandshakeState.New
    permanent_key := pubkey
    session_key := none
    cookie_pair := ⟨ourCookie, none⟩
    csn_pair := ⟨ourCsn, none⟩ }

/-- Modelled from the spec (§3): a responder peer context kept by the
initiator. -/
structure ResponderContext where
  address : Address
  handshake_state : ResponderHandshakeState
  permanent_key : Option Nat
  session_key : Option Nat
  cookie_pair : CookiePair
  csn_pair : CsnPair
deriving DecidableEq, Repr

/-- Modelled from the spec (§4.6.a): `ResponderContext::new` creates a fresh
context: fresh cookie, zero CSN for ours, `None` for theirs, sub-state `New`. -/
def ResponderContext.new (address : Address) (freshCookie : Cookie) :
    ResponderContext :=
  { address := address
    handshake_state := ResponderHandshakeState.New
    permanent_key := none
    session_key := none
    cookie_pair := ⟨freshCookie, none⟩
    csn_pair := ⟨⟨0, 0⟩, none⟩ }

/-- Modelled from the spec: the negotiated subprotocol constant (`SUBPROTOCOL`
from the crate root, which is not in the sources). -/
def SUBPROTOCOL : String := "v1.saltyrtc.org"

/-- The stream of random draws consumed by the state machine (fresh cookies
for new responder contexts and fresh keypairs for session keys).  This makes
the randomness of the source explicit, as required by the determinism clause
of the spec (§8, identical random draws). -/
structure Entropy where
  cookies : List Cookie
  keys : List KeyStore
deriving DecidableEq, Repr

/-- Draw the next fresh cookie from the entropy stream. -/
def Entropy.drawCookie (e : Entropy) : Cookie × Entropy :=
  (e.cookies.headD ⟨List.replicate 16 0⟩, { e with cookies := e.cookies.tail })

/-- From `protocol/mod.rs`: `struct InitiatorSignaling`.  The responders
`HashMap` is modelled as an association list keyed by `Address`. -/
structure InitiatorSignaling where
  signaling_state : SignalingState
  permanent_key : KeyStore
  auth_token : Option AuthToken
  identity : ClientIdentity
  server : ServerContext
  responders : List (Address × ResponderContext)
  responder : Option ResponderContext
deriving DecidableEq, Repr

/-- From `protocol/mod.rs`: `struct ResponderSignaling`. -/
structure ResponderSignaling where
  signaling_state : SignalingState
  permanent_key : KeyStore
  session_key : Option KeyStore
  auth_token : Option AuthToken
  identity : ClientIdentity
  server : ServerContext
  initiator : InitiatorContext
deriving DecidableEq, Repr

/-- From `protocol/mod.rs`: `enum Signaling`. -/
inductive Signaling where
  | Initiator (s : InitiatorSignaling)
  | Responder (s : ResponderSignaling)
deriving DecidableEq, Repr

/-- From `protocol/mod.rs`: `InitiatorSignaling::new`, parametrized by the
random draws (the fresh auth token and the server context's cookie and CSN). -/
def Signaling.new_initiator (permanent_key : KeyStore) (freshAuthToken : AuthToken)
    (serverCookie : Cookie) (serverCsn : Csn) : Signaling :=
  Signaling.Initiator
    { signaling_state := SignalingState.ServerHandshake
      identity := ClientIdentity.Unknown
      server := ServerContext.new serverCookie serverCsn
      permanent_key := permanent_key
      auth_token := some freshAuthToken
      responders := []
      responder := none }

/-- From `protocol/mod.rs`: `ResponderSignaling::new`, parametrized by the
random draws (cookies and CSNs of the server and initiator contexts). -/
def Signaling.new_responder (permanent_key : KeyStore) (initiator_pubkey : Nat)
    (auth_token : Option AuthToken) (serverCookie : Cookie) (serverCsn : Csn)
    (initiatorCookie : Cookie) (initiatorCsn : Csn) : Signaling :=
  Signaling.Responder
    { signaling_state := SignalingState.ServerHandshake
      permanent_key := permanent_key
      session_key := none
      auth_token := auth_token
      identity := ClientIdentity.Unknown
      server := ServerContext.new serverCookie serverCsn
      initiator := InitiatorContext.new initiator_pubkey initiatorCookie initiatorCsn }

/-- From `protocol/mod.rs`: `Signaling::role`. -/
def Signaling.role : Signaling → Role
  | Signaling.Initiator _ => Role.Initiator
  | Signaling.Responder _ => Role.Responder

/-- From `protocol/mod.rs`: `Signaling::identity`. -/
def Signaling.identity : Signaling → ClientIdentity
  | Signaling.Initiator s => s.identity
  | Signaling.Responder s => s.identity

/-- From `protocol/mod.rs`: `Signaling::set_identity`. -/
def Signaling.setIdentity : Signaling → ClientIdentity → Signaling
  | Signaling.Initiator s, id => Signaling.Initiator { s with identity := id }
  | Signaling.Responder s, id => Signaling.Responder { s with identity := id }

/-- From `protocol/mod.rs`: `Signaling::permanent_key`. -/
def Signaling.permanent_key : Signaling → KeyStore
  | Signaling.Initiator s => s.permanent_key
  | Signaling.Responder s => s.permanent_key

/-- From `protocol/mod.rs`: `Signaling::auth_token`. -/
def Signaling.auth_token : Signaling → Option AuthToken
  | Signaling.Initiator s => s.auth_token
  | Signaling.Responder s => s.auth_token

/-- From `protocol/mod.rs`: `Signaling::server`. -/
def Signaling.server : Signaling → ServerContext
  | Signaling.Initiator s => s.server
  | Signaling.Responder s => s.server

/-- Functional counterpart of `Signaling::server_mut`: replace the server
context. -/
def Signaling.setServer : Signaling → ServerContext → Signaling
  | Signaling.Initiator s, srv => Signaling.Initiator { s with server := srv }
  | Signaling.Responder s, srv => Signaling.Responder { s with server := srv }

/-- From `protocol/mod.rs`: `Signaling::signaling_state`. -/
def Signaling.signaling_state : Signaling → SignalingState
  | Signaling.Initiator s => s.signaling_state
  | Signaling.Responder s => s.signaling_state

/-- Raw update of the signaling state (the `update!` arm of
`Signaling::set_signaling_state`). -/
def Signaling.setSignalingStateRaw : Signaling → SignalingState → Signaling
  | Signaling.Initiator s, st => Signaling.Initiator { s with signaling_state := st }
  | Signaling.Responder s, st => Signaling.Responder { s with signaling_state := st }

/-- From `protocol/mod.rs`: `Signaling::set_signaling_state` with its
ignore/update/fail transition table. -/
def Signaling.set_signaling_state (s : Signaling) (state : SignalingState) :
    Except SignalingError Signaling :=
  match s.signaling_state, state with
  | SignalingState.ServerHandshake, SignalingState.ServerHandshake => Except.ok s
  | SignalingState.ServerHandshake, _ => Except.ok (s.setSignalingStateRaw state)
  | SignalingState.PeerHandshake, SignalingState.ServerHandshake =>
    Except.error (SignalingError.InvalidStateTransition
      ("Signaling state: " ++ SignalingState.PeerHandshake.debugStr ++ " -> "
        ++ state.debugStr))
  | SignalingState.PeerHandshake, SignalingState.PeerHandshake => Except.ok s
  | SignalingState.PeerHandshake, _ => Except.ok (s.setSignalingStateRaw state)
  | SignalingState.Task, _ =>
    Except.error (SignalingError.InvalidStateTransition
      ("Signaling state: " ++ SignalingState.Task.debugStr ++ " -> " ++ state.debugStr))

/-- `HashMap::get` on the responders association list. -/
def mapGet (m : List (Address × ResponderContext)) (k : Address) :
    Option ResponderContext :=
  (m.find? (fun p => decide (p.1 = k))).map (fun p => p.2)

/-- `HashMap::insert` on the responders association list: replaces any entry
with the same key. -/
def mapInsert (m : List (Address × ResponderContext)) (k : Address)
    (v : ResponderContext) : List (Address × ResponderContext) :=
  m.filter (fun p => decide (p.1 ≠ k)) ++ [(k, v)]

/-- From `protocol/mod.rs`: `Signaling::responder_with_address_mut` (read
part); on a responder it warns and yields `None`. -/
def Signaling.responder_with_address : Signaling → Address → Option ResponderContext
  | Signaling.Initiator s, addr => mapGet s.responders addr
  | Signaling.Responder _, _ => none

/-- Write back an updated responder context under its address (the mutation
through `responder_with_address_mut`). -/
def Signaling.updateResponder : Signaling → Address → ResponderContext → Signaling
  | Signaling.Initiator s, addr, rc =>
    Signaling.Initiator
      { s with responders :=
          s.responders.map (fun p => if p.1 = addr then (addr, rc) else p) }
  | Signaling.Responder s, _, _ => Signaling.Responder s

/-- From `protocol/mod.rs`: `enum ValidationResult`.  The extra `Panicked`
variant records that the source would panic (it contains an `unimplemented!`
arm in the peer lookup). -/
inductive ValidationResult where
  | Ok
  | DropMsg (warning : String)
  | Fail (reason : String)
  | Panicked (msg : String)
deriving DecidableEq, Repr

/-- The "Bad destination" failure message of `Signaling::validate_nonce`. -/
def badDestMsg (nonce : Nonce) (id : ClientIdentity) : String :=
  "Bad destination: " ++ nonce.destination.display ++ " (our identity is "
    ++ id.display ++ ")"

/-- The "cannot assign" failure message of `Signaling::validate_nonce`. -/
def cannotAssignMsg (nonce : Nonce) (role : Role) : String :=
  "cannot assign address " ++ nonce.destination.display
    ++ " to a client with role " ++ role.display

/-- The "bad source" drop message of `Signaling::validate_nonce`. -/
def badSourceMsg (nonce : Nonce) (id : ClientIdentity) : String :=
  "bad source: " ++ nonce.source.display ++ " (our identity is "
    ++ id.display ++ ")"

/-- From `protocol/mod.rs` (`Signaling::validate_nonce`, CSN block): validate
the incoming CSN against the stored pair; on success the updated pair is
returned, on failure the failure reason (the pair is left unchanged). -/
def csnCheck (csn_pair : CsnPair) (peer_identity : String) (nonce : Nonce) :
    Option String × CsnPair :=
  match csn_pair.theirs with
  | some previous =>
    let current := nonce.csn
    if Csn.lt current previous then
      (some (peer_identity ++ " CSN is lower than last time"), csn_pair)
    else if current = previous then
      (some (peer_identity ++ " CSN hasn\x27t been incremented"), csn_pair)
    else
      (none, { csn_pair with theirs := some current })
  | none =>
    if nonce.csn.overflow ≠ 0 then
      (some ("First message from " ++ peer_identity
        ++ " must have set the overflow number to 0"), csn_pair)
    else
      (none, { csn_pair with theirs := some nonce.csn })

/-- From `protocol/mod.rs` (`Signaling::validate_nonce`, cookie block):
validate the incoming cookie against the stored pair; on success the updated
pair is returned, on failure the failure reason. -/
def cookieCheck (cookie_pair : CookiePair) (peer_identity : String) (nonce : Nonce) :
    Option String × CookiePair :=
  match cookie_pair.theirs with
  | none =>
    if nonce.cookie = cookie_pair.ours then
      (some ("Cookie from " ++ peer_identity ++ " is identical to our own cookie"),
        cookie_pair)
    else
      (none, { cookie_pair with theirs := some nonce.cookie })
  | some cookie =>
    if nonce.cookie ≠ cookie then
      (some ("Cookie from " ++ peer_identity ++ " has changed"), cookie_pair)
    else
      (none, cookie_pair)

/-- From `protocol/mod.rs`: `Signaling::validate_nonce`.  The state updates
(identity assignment, stored CSN and cookie) are threaded through the returned
signaling value exactly as the source mutates them in place. -/
def Signaling.validate_nonce (s0 : Signaling) (nonce : Nonce) :
    ValidationResult × Signaling :=
  -- Identity assignment on the first frame with a non-zero destination
  let assign : ValidationResult × Signaling :=
    if s0.identity = ClientIdentity.Unknown ∧ nonce.destination.is_unknown = false
        ∧ s0.server.handshake_state ≠ ServerHandshakeState.New then
      match s0.role with
      | Role.Initiator =>
        if nonce.destination.is_initiator then
          (ValidationResult.Ok, s0.setIdentity ClientIdentity.Initiator)
        else
          (ValidationResult.Fail (cannotAssignMsg nonce s0.role), s0)
      | Role.Responder =>
        if nonce.destination.is_responder then
          (ValidationResult.Ok, s0.setIdentity (ClientIdentity.Responder nonce.destination.val))
        else
          (ValidationResult.Fail (cannotAssignMsg nonce s0.role), s0)
    else (ValidationResult.Ok, s0)
  match assign with
  | (ValidationResult.Fail r, s) => (ValidationResult.Fail r, s)
  | (_, s) =>
    -- Destination match
    if nonce.destination ≠ s.identity.toAddress then
      (ValidationResult.Fail (badDestMsg nonce s.identity), s)
    else
      -- Source permission
      let srcDrop : Option String :=
        if nonce.source.val = 0x00 then none
        else if nonce.source.val = 0x01 then
          match s.identity with
          | ClientIdentity.Responder _ => none
          | _ => some (badSourceMsg nonce s.identity)
        else
          match s.identity with
          | ClientIdentity.Initiator => none
          | _ => some (badSourceMsg nonce s.identity)
      match srcDrop with
      | some w => (ValidationResult.DropMsg w, s)
      | none =>
        -- Peer lookup, then CSN and cookie validation against that peer
        if nonce.source.val = 0x00 then
          let pid := Identity.Server.display
          match csnCheck s.server.csn_pair pid nonce with
          | (some r, _) => (ValidationResult.Fail r, s)
          | (none, csnp) =>
            let s1 := s.setServer { s.server with csn_pair := csnp }
            match cookieCheck s1.server.cookie_pair pid nonce with
            | (some r, _) => (ValidationResult.Fail r, s1)
            | (none, ckp) =>
              (ValidationResult.Ok, s1.setServer { s1.server with cookie_pair := ckp })
        else if nonce.source.val = 0x01 then
          -- the source contains `0x01 => unimplemented!()` in the peer lookup
          (ValidationResult.Panicked "not implemented", s)
        else
          match s.responder_with_address nonce.source with
          | none =>
            (ValidationResult.Fail
              ("could not find responder with address " ++ Nat.repr nonce.source.val), s)
          | some rc =>
            let pid := (Identity.Responder nonce.source.val).display
            match csnCheck rc.csn_pair pid nonce with
            | (some r, _) => (ValidationResult.Fail r, s)
            | (none, csnp) =>
              let rc1 := { rc with csn_pair := csnp }
              let s1 := s.updateResponder nonce.source rc1
              match cookieCheck rc1.cookie_pair pid nonce with
              | (some r, _) => (ValidationResult.Fail r, s1)
              | (none, ckp) =>
                (ValidationResult.Ok,
                  s1.updateResponder nonce.source { rc1 with cookie_pair := ckp })

/-- From `protocol/types.rs`: `enum HandleAction` (symbolic frame level). -/
inductive HandleAction where
  | Reply (bbox : BBox)
deriving DecidableEq, Repr

/-- The outcome of `handle_message` / its helpers: success with a list of
actions, a surfaced `SignalingError`, or a panic of the source
(`unimplemented!`, `unreachable!`, `Option::unwrap` on `None`). -/
inductive HandleOutcome where
  | ok (actions : List HandleAction)
  | err (e : SignalingError)
  | panicked (msg : String)
deriving DecidableEq, Repr

/-- From `protocol/mod.rs`: `Signaling::decode_msg` — plain decoding while the
server handshake is `New`, otherwise decryption with our permanent key and the
server's permanent key. -/
def Signaling.decode_msg (s : Signaling) (bbox : BBox) : Except SignalingError OBox :=
  if s.server.handshake_state = ServerHandshakeState.New then
    bbox.decode
  else
    match s.server.permanent_key with
    | some pubkey => bbox.decrypt s.permanent_key pubkey
    | none => Except.error (SignalingError.Crash "Missing server permanent key")

/-- From `protocol/mod.rs`: `Signaling::handle_server_hello`.  State updates
(server permanent key, outbound CSN increments, handshake sub-state) are
threaded exactly in source order. -/
def Signaling.handle_server_hello (s0 : Signaling) (key : Nat) :
    HandleOutcome × Signaling :=
  if s0.server.permanent_key.isSome then
    (HandleOutcome.err (SignalingError.Protocol
      "Got a server-hello message, but server permanent key is already set"), s0)
  else
    let s1 := s0.setServer { s0.server with permanent_key := some key }
    -- Reply with client-hello message if we're a responder
    let step2 : (Option SignalingError × List HandleAction × Signaling) :=
      if s1.role = Role.Responder then
        match s1.server.csn_pair.ours.increment with
        | none => (some SignalingError.CsnOverflow, [], s1)
        | some csn1 =>
          let s2 := s1.setServer
            { s1.server with csn_pair := { s1.server.csn_pair with ours := csn1 } }
          let client_hello := Message.ClientHello s2.permanent_key.public_key
          let client_hello_nonce : Nonce :=
            ⟨s2.server.cookie_pair.ours, s2.identity.toAddress,
              Identity.Server.toAddress, csn1⟩
          (none, [HandleAction.Reply (OBox.encode ⟨client_hello, client_hello_nonce⟩)], s2)
      else (none, [], s1)
    match step2 with
    | (some e, _, s) => (HandleOutcome.err e, s)
    | (none, actions1, s2) =>
      -- Send client-auth message
      match s2.server.cookie_pair.theirs with
      | none =>
        -- `cookie_pair().theirs.clone().unwrap()` panics when no cookie is stored
        (HandleOutcome.panicked "called unwrap on a None value", s2)
      | some theirCookie =>
        let client_auth := Message.ClientAuth
          ⟨theirCookie, [SUBPROTOCOL], 0, none⟩
        match s2.server.csn_pair.ours.increment with
        | none => (HandleOutcome.err SignalingError.CsnOverflow, s2)
        | some csn2 =>
          let s3 := s2.setServer
            { s2.server with csn_pair := { s2.server.csn_pair with ours := csn2 } }
          let client_auth_nonce : Nonce :=
            ⟨s3.server.cookie_pair.ours, s3.identity.toAddress,
              Identity.Server.toAddress, csn2⟩
          match s3.server.permanent_key with
          | some pubkey =>
            let reply := OBox.encrypt ⟨client_auth, client_auth_nonce⟩ s3.permanent_key pubkey
            let s4 := s3.setServer
              { s3.server with handshake_state := ServerHandshakeState.ClientInfoSent }
            (HandleOutcome.ok (actions1 ++ [HandleAction.Reply reply]), s4)
          | none => (HandleOutcome.err (SignalingError.Crash "Missing server permanent key"), s3)

/-- From `protocol/mod.rs`: `InitiatorSignaling::handle_server_auth` (the
role-specific checks of an initiator).  The `HashSet` of responder addresses
is modelled by `List.dedup`; since the addresses inserted on success are
pairwise distinct, the iteration order of the set is immaterial for the
resulting map. -/
def InitiatorSignaling.handle_server_auth (i : InitiatorSignaling) (msg : ServerAuth)
    (ent : Entropy) :
    Except SignalingError (List HandleAction) × InitiatorSignaling × Entropy :=
  if msg.initiator_connected.isSome then
    (Except.error (SignalingError.InvalidMessage
      "We\x27re the initiator, but the `initiator_connected` field in the server-auth message is set"),
      i, ent)
  else
    match msg.responders with
    | none =>
      (Except.error (SignalingError.InvalidMessage
        "`responders` field in server-auth message not set"), i, ent)
    | some responders =>
      let responders_set := responders.dedup
      if (⟨0x00⟩ : Address) ∈ responders_set ∨ (⟨0x01⟩ : Address) ∈ responders_set then
        (Except.error (SignalingError.InvalidMessage
          "`responders` field in server-auth message may not contain addresses <0x02"),
          i, ent)
      else if responders.length ≠ responders_set.length then
        (Except.error (SignalingError.InvalidMessage
          "`responders` field in server-auth message may not contain duplicates"), i, ent)
      else
        let fin := responders_set.foldl
          (fun (acc : List (Address × ResponderContext) × Entropy) address =>
            let (c, e1) := acc.2.drawCookie
            (mapInsert acc.1 address (ResponderContext.new address c), e1))
          (i.responders, ent)
        (Except.ok [], { i with responders := fin.1 }, fin.2)

/-- From `protocol/mod.rs`: `InitiatorSignaling::handle_new_responder`. -/
def InitiatorSignaling.handle_new_responder (i : InitiatorSignaling) (id : Address)
    (ent : Entropy) :
    Except SignalingError (List HandleAction) × InitiatorSignaling × Entropy :=
  if id.is_responder = false then
    (Except.error (SignalingError.InvalidMessage
      "`id` field in new-responder message is not a valid responder address"), i, ent)
  else
    let (c, ent1) := ent.drawCookie
    (Except.ok [],
      { i with responders := mapInsert i.responders id (ResponderContext.new id c) },
      ent1)

/-- From `protocol/mod.rs`: `InitiatorSignaling::handle_peer_message` — no
client-to-client transition is implemented, every message yields an error. -/
def InitiatorSignaling.handle_peer_message (i : InitiatorSignaling) (obox : OBox) :
    Except SignalingError (List HandleAction) × InitiatorSignaling :=
  let source := obox.nonce.source
  match mapGet i.responders source with
  | none =>
    (Except.error (SignalingError.Crash
      ("Did not find responder with address " ++ source.display)), i)
  | some responder =>
    (Except.error (SignalingError.InvalidStateTransition
      ("Got " ++ obox.message.get_type ++ " message from responder "
        ++ source.display ++ " in " ++ responder.handshake_state.debugStr
        ++ " state")), i)

/-- From `protocol/mod.rs`: `ResponderSignaling::send_token` — build the
`token` reply carrying our permanent public key, secret-key encrypted with the
auth token; increments the outbound CSN towards the initiator. -/
def ResponderSignaling.send_token (r : ResponderSignaling) (token : AuthToken) :
    Except SignalingError (HandleAction × ResponderSignaling) :=
  let msg := Message.Token r.permanent_key.public_key
  match r.initiator.csn_pair.ours.increment with
  | none => Except.error SignalingError.CsnOverflow
  | some csn =>
    let r1 := { r with initiator :=
      { r.initiator with csn_pair := { r.initiator.csn_pair with ours := csn } } }
    let nonce : Nonce :=
      ⟨r1.initiator.cookie_pair.ours, r1.identity.toAddress,
        Identity.Initiator.toAddress, csn⟩
    Except.ok (HandleAction.Reply (OBox.encrypt_token ⟨msg, nonce⟩ token), r1)

/-- From `protocol/mod.rs`: `ResponderSignaling::send_key` — build the `key`
reply carrying our session public key, public-key encrypted with our permanent
key for the initiator's permanent key. -/
def ResponderSignaling.send_key (r : ResponderSignaling) :
    Except SignalingError (HandleAction × ResponderSignaling) :=
  match r.session_key with
  | none => Except.error (SignalingError.Crash "Missing session keypair")
  | some session_key =>
    let msg := Message.Key session_key.public_key
    match r.initiator.csn_pair.ours.increment with
    | none => Except.error SignalingError.CsnOverflow
    | some csn =>
      let r1 := { r with initiator :=
        { r.initiator with csn_pair := { r.initiator.csn_pair with ours := csn } } }
      let nonce : Nonce :=
        ⟨r1.initiator.cookie_pair.ours, r1.identity.toAddress,
          Identity.Initiator.toAddress, csn⟩
      Except.ok (HandleAction.Reply
        (OBox.encrypt ⟨msg, nonce⟩ r1.permanent_key r1.initiator.permanent_key), r1)

/-- The `while session_key == permanent_key` regeneration loop of
`ResponderSignaling::generate_session_key`: draw keypairs until one differs
from the permanent keypair, consuming the entropy stream.  `none` means the
stream ran out (the source would keep drawing). -/
def drawSessionKey : List KeyStore → KeyStore → Option (KeyStore × List KeyStore)
  | [], _ => none
  | k :: rest, perm =>
    if k = perm then drawSessionKey rest perm else some (k, rest)

/-- From `protocol/mod.rs`: `ResponderSignaling::generate_session_key`. -/
def ResponderSignaling.generate_session_key (r : ResponderSignaling) (ent : Entropy) :
    Except SignalingError (ResponderSignaling × Entropy) :=
  if r.session_key.isSome then
    Except.error (SignalingError.Crash
      "Cannot generate new session key: It has already been generated")
  else
    match drawSessionKey ent.keys r.permanent_key with
    | none => Except.error (SignalingError.Crash "entropy stream exhausted")
    | some (k, rest) =>
      Except.ok ({ r with session_key := some k }, { ent with keys := rest })

/-- From `protocol/mod.rs`: `ResponderSignaling::handle_server_auth` (the
role-specific checks of a responder).  On `initiator_connected = true` it
queues a `token` reply when an auth token is held, generates the session key
and queues the `key` reply, then advances the initiator sub-state to
`KeySent`. -/
def ResponderSignaling.handle_server_auth (r : ResponderSignaling) (msg : ServerAuth)
    (ent : Entropy) :
    Except SignalingError (List HandleAction) × ResponderSignaling × Entropy :=
  if msg.responders.isSome then
    (Except.error (SignalingError.InvalidMessage
      "We\x27re a responder, but the `responders` field in the server-auth message is set"),
      r, ent)
  else
    match msg.initiator_connected with
    | some true =>
      let tokenStep : Except SignalingError (List HandleAction × ResponderSignaling) :=
        match r.auth_token with
        | some token =>
          match r.send_token token with
          | Except.error e => Except.error e
          | Except.ok (a, r1) => Except.ok ([a], r1)
        | none => Except.ok ([], r)
      match tokenStep with
      | Except.error e => (Except.error e, r, ent)
      | Except.ok (actions1, r1) =>
        match r1.generate_session_key ent with
        | Except.error e => (Except.error e, r1, ent)
        | Except.ok (r2, ent1) =>
          match r2.send_key with
          | Except.error e => (Except.error e, r2, ent1)
          | Except.ok (a2, r3) =>
            let r4 := { r3 with initiator :=
              { r3.initiator with handshake_state := InitiatorHandshakeState.KeySent } }
            (Except.ok (actions1 ++ [a2]), r4, ent1)
    | some false => (Except.ok [], r, ent)
    | none =>
      (Except.error (SignalingError.InvalidMessage
        "We\x27re a responder, but the `initiator_connected` field in the server-auth message is not set"),
        r, ent)

/-- From `protocol/mod.rs`: `ResponderSignaling::handle_peer_message` — no
client-to-client transition is implemented, every message yields an error. -/
def ResponderSignaling.handle_peer_message (r : ResponderSignaling) (obox : OBox) :
    Except SignalingError (List HandleAction) × ResponderSignaling :=
  (Except.error (SignalingError.InvalidStateTransition
    ("Got " ++ obox.message.get_type ++ " message from initiator in "
      ++ r.initiator.handshake_state.debugStr ++ " state")), r)

/-- From `protocol/mod.rs`: `Signaling::handle_server_auth` (the common
checks), delegating the role-specific part, then advancing the server
sub-state to `Done` and the signaling state to `PeerHandshake`. -/
def Signaling.handle_server_auth (s : Signaling) (msg : ServerAuth) (ent : Entropy) :
    HandleOutcome × Signaling × Entropy :=
  if s.identity = ClientIdentity.Unknown then
    (HandleOutcome.err (SignalingError.Crash
      "No identity assigned when receiving server-auth message"), s, ent)
  else if msg.your_cookie ≠ s.server.cookie_pair.ours then
    (HandleOutcome.err (SignalingError.InvalidMessage
      "Cookie sent in server-auth message does not match our cookie"), s, ent)
  else
    let inner : Except SignalingError (List HandleAction) × Signaling × Entropy :=
      match s with
      | Signaling.Initiator i =>
        match i.handle_server_auth msg ent with
        | (res, i1, ent1) => (res, Signaling.Initiator i1, ent1)
      | Signaling.Responder r =>
        match r.handle_server_auth msg ent with
        | (res, r1, ent1) => (res, Signaling.Responder r1, ent1)
    match inner with
    | (Except.error e, s1, ent1) => (HandleOutcome.err e, s1, ent1)
    | (Except.ok actions, s1, ent1) =>
      let s2 := s1.setServer
        { s1.server with handshake_state := ServerHandshakeState.Done }
      match s2.set_signaling_state SignalingState.PeerHandshake with
      | Except.error e => (HandleOutcome.err e, s2, ent1)
      | Except.ok s3 => (HandleOutcome.ok actions, s3, ent1)

/-- From `protocol/mod.rs`: `Signaling::handle_server_message` — dispatch on
(server handshake sub-state, message); `DropResponder` and `SendError` are
`unimplemented!` in the source. -/
def Signaling.handle_server_message (s : Signaling) (obox : OBox) (ent : Entropy) :
    HandleOutcome × Signaling × Entropy :=
  match s.server.handshake_state, obox.message with
  | ServerHandshakeState.New, Message.ServerHello key =>
    match s.handle_server_hello key with
    | (o, s1) => (o, s1, ent)
  | ServerHandshakeState.ClientInfoSent, Message.ServerAuth msg =>
    s.handle_server_auth msg ent
  | ServerHandshakeState.Done, Message.NewResponder id =>
    match s with
    | Signaling.Initiator i =>
      match i.handle_new_responder id ent with
      | (Except.ok actions, i1, ent1) => (HandleOutcome.ok actions, Signaling.Initiator i1, ent1)
      | (Except.error e, i1, ent1) => (HandleOutcome.err e, Signaling.Initiator i1, ent1)
    | Signaling.Responder _ =>
      (HandleOutcome.err (SignalingError.Protocol
        "Received \x27new-responder\x27 message as responder"), s, ent)
  | ServerHandshakeState.Done, Message.DropResponder _ =>
    (HandleOutcome.panicked "not implemented", s, ent)
  | ServerHandshakeState.Done, Message.SendError _ =>
    (HandleOutcome.panicked "not implemented", s, ent)
  | st, m =>
    (HandleOutcome.err (SignalingError.InvalidStateTransition
      ("Got " ++ m.get_type ++ " message from server in " ++ st.debugStr ++ " state")),
      s, ent)

/-- From `protocol/mod.rs`: `Signaling::handle_message` — validate the nonce
(committing its state updates), then decode or decrypt, then dispatch by
signaling state.  `DropMsg` returns `Ok(vec![])`; a validation `Fail` surfaces
as `InvalidNonce`. -/
def Signaling.handle_message (s : Signaling) (bbox : BBox) (ent : Entropy) :
    HandleOutcome × Signaling × Entropy :=
  match s.validate_nonce bbox.nonce with
  | (ValidationResult.DropMsg _, s1) => (HandleOutcome.ok [], s1, ent)
  | (ValidationResult.Fail reason, s1) =>
    (HandleOutcome.err (SignalingError.InvalidNonce reason), s1, ent)
  | (ValidationResult.Panicked m, s1) => (HandleOutcome.panicked m, s1, ent)
  | (ValidationResult.Ok, s1) =>
    match s1.decode_msg bbox with
    | Except.error e => (HandleOutcome.err e, s1, ent)
    | Except.ok obox =>
      match s1.signaling_state with
      | SignalingState.ServerHandshake => s1.handle_server_message obox ent
      | SignalingState.PeerHandshake =>
        if obox.nonce.source.is_server then
          s1.handle_server_message obox ent
        else
          match s1 with
          | Signaling.Initiator i =>
            match i.handle_peer_message obox with
            | (Except.ok actions, i1) => (HandleOutcome.ok actions, Signaling.Initiator i1, ent)
            | (Except.error e, i1) => (HandleOutcome.err e, Signaling.Initiator i1, ent)
          | Signaling.Responder r =>
            match r.handle_peer_message obox with
            | (Except.ok actions, r1) => (HandleOutcome.ok actions, Signaling.Responder r1, ent)
            | (Except.error e, r1) => (HandleOutcome.err e, Signaling.Responder r1, ent)
      | SignalingState.Task =>
        (HandleOutcome.panicked "TODO: Handle task messages", s1, ent)

/-! ## Helper lemmas -/

theorem getD_take (l : List Nat) (i n d : Nat) (h : i < n) :
    (l.take n).getD i d = l.getD i d := by
  simp [List.getD_eq_getD_get?, List.get?_eq_getElem?, List.getElem?_take, h]

/-- Decoding the wire bytes of a well-formed nonce yields the nonce back. -/
theorem Nonce.from_bytes_into_bytes (n : Nonce) (h : n.wf) :
    Nonce.from_bytes n.into_bytes = Except.ok n := by
  obtain ⟨⟨cb⟩, ⟨sv⟩, ⟨dv⟩, ⟨ov, sq⟩⟩ := n
  obtain ⟨hlen, -, -, -, hovfl, hseq⟩ := h
  simp only [Cookie.mk.injEq] at *
  have hrw : Nonce.into_bytes ⟨⟨cb⟩, ⟨sv⟩, ⟨dv⟩, ⟨ov, sq⟩⟩ =
      cb ++ [sv, dv, ov / 256 % 256, ov % 256,
             sq / 2 ^ 24 % 256, sq / 2 ^ 16 % 256, sq / 256 % 256, sq % 256] := by
    simp [Nonce.into_bytes, be2, be4]
  rw [hrw]
  unfold Nonce.from_bytes
  rw [if_neg (by simp [hlen])]
  simp only [List.take_left' hlen, List.getD_append_right _ _ _ _ (by omega : cb.length ≤ 16),
    List.getD_append_right _ _ _ _ (by omega : cb.length ≤ 17),
    List.getD_append_right _ _ _ _ (by omega : cb.length ≤ 18),
    List.getD_append_right _ _ _ _ (by omega : cb.length ≤ 19),
    List.getD_append_right _ _ _ _ (by omega : cb.length ≤ 20),
    List.getD_append_right _ _ _ _ (by omega : cb.length ≤ 21),
    List.getD_append_right _ _ _ _ (by omega : cb.length ≤ 22),
    List.getD_append_right _ _ _ _ (by omega : cb.length ≤ 23), hlen]
  simp only [Except.ok.injEq, Nonce.mk.injEq, Cookie.mk.injEq, Address.mk.injEq, Csn.mk.injEq]
  norm_num
  omega

/-! ## Claim theorems: frame codec -/

/-- C8: `ByteBox::from_slice` fails with `Decode("message is too short")` for
every input of length at most 24 bytes, and for every longer input returns a
`ByteBox` whose nonce is decoded from the first 24 bytes (per the wire
layout) and whose body is exactly the remaining bytes. -/
theorem C8_from_slice_spec (bytes : List Nat) :
    (bytes.length ≤ 24 →
      ByteBox.from_slice bytes = Except.error (FrameError.Decode "message is too short")) ∧
    (24 < bytes.length →
      ByteBox.from_slice bytes = Except.ok (ByteBox.new (bytes.drop 24)
        ⟨⟨bytes.take 16⟩, ⟨bytes.getD 16 0⟩, ⟨bytes.getD 17 0⟩,
         ⟨bytes.getD 18 0 * 256 + bytes.getD 19 0,
          bytes.getD 20 0 * 2 ^ 24 + bytes.getD 21 0 * 2 ^ 16
            + bytes.getD 22 0 * 256 + bytes.getD 23 0⟩⟩)) := by
  constructor
  · intro h
    unfold ByteBox.from_slice NONCEBYTES
    rw [if_pos h]
  · intro h
    unfold ByteBox.from_slice NONCEBYTES
    rw [if_neg (by omega)]
    have hlen : (bytes.take 24).length = 24 := by simp; omega
    unfold Nonce.from_bytes
    rw [if_neg (by omega)]
    have ht : (bytes.take 24).take 16 = bytes.take 16 := by
      rw [List.take_take]
      norm_num
    rw [ht, getD_take _ _ _ _ (by omega), getD_take _ _ _ _ (by omega),
      getD_take _ _ _ _ (by omega), getD_take _ _ _ _ (by omega),
      getD_take _ _ _ _ (by omega), getD_take _ _ _ _ (by omega),
      getD_take _ _ _ _ (by omega), getD_take _ _ _ _ (by omega)]

/-- Witness for C8 at concrete inputs: a 24-byte frame is rejected as too
short, and a 25-byte frame is split into nonce and 1-byte body. -/
theorem C8_from_slice_spec_witness :
    ByteBox.from_slice (List.replicate 24 3) =
      Except.error (FrameError.Decode "message is too short") ∧
    ByteBox.from_slice (List.replicate 25 3) = Except.ok (ByteBox.new [3]
      ⟨⟨List.replicate 16 3⟩, ⟨3⟩, ⟨3⟩, ⟨3 * 256 + 3, 3 * 2 ^ 24 + 3 * 2 ^ 16 + 3 * 256 + 3⟩⟩) := by
  constructor
  · exact (C8_from_slice_spec (List.replicate 24 3)).1 (by decide)
  · have h := (C8_from_slice_spec (List.replicate 25 3)).2 (by decide)
    rw [h]
    rfl

/-- C9: plain frame round-trip — for every well-formed 24-byte nonce and every
non-empty body, `from_slice (new(body, nonce).into_bytes())` succeeds and
yields the same nonce and body. -/
theorem C9_frame_roundtrip (nonce : Nonce) (body : List Nat)
    (hwf : nonce.wf) (hbody : body ≠ []) :
    ByteBox.from_slice (ByteBox.into_bytes (ByteBox.new body nonce)) =
      Except.ok (ByteBox.new body nonce) := by
  have hlen24 : nonce.into_bytes.length = 24 := by
    obtain ⟨hlen, -, -, -, -, -⟩ := hwf
    simp [Nonce.into_bytes, be2, be4, hlen]
  have hbodyLen : 0 < body.length := List.length_pos.mpr hbody
  show ByteBox.from_slice (nonce.into_bytes ++ body) = _
  unfold ByteBox.from_slice NONCEBYTES
  have hcond : ¬ (nonce.into_bytes ++ body).length ≤ 24 := by
    rw [List.length_append, hlen24]
    omega
  rw [if_neg hcond]
  rw [List.take_left' hlen24, List.drop_left' hlen24,
    Nonce.from_bytes_into_bytes nonce hwf]

/-- Witness for C9 at a concrete nonce and body. -/
theorem C9_frame_roundtrip_witness :
    ByteBox.from_slice (ByteBox.into_bytes (ByteBox.new [7, 8]
      ⟨⟨List.replicate 16 5⟩, ⟨0⟩, ⟨1⟩, ⟨258, 50595078⟩⟩)) =
      Except.ok (ByteBox.new [7, 8] ⟨⟨List.replicate 16 5⟩, ⟨0⟩, ⟨1⟩, ⟨258, 50595078⟩⟩) :=
  C9_frame_roundtrip ⟨⟨List.replicate 16 5⟩, ⟨0⟩, ⟨1⟩, ⟨258, 50595078⟩⟩ [7, 8]
    (by decide) (by decide)

/-- Helper: a `Fail` of the validator surfaces from `handle_message` as
`InvalidNonce` with the validator's partially updated state. -/
theorem validate_fail_handle_message (s : Signaling) (bbox : BBox) (ent : Entropy)
    (reason : String) (s1 : Signaling)
    (h : s.validate_nonce bbox.nonce = (ValidationResult.Fail reason, s1)) :
    s.handle_message bbox ent = (HandleOutcome.err (SignalingError.InvalidNonce reason), s1, ent) := by
  unfold Signaling.handle_message
  rw [h]

/-! ## Claim theorems: nonce validator -/

/-- C1: CSN check of the nonce validator.  For every peer (any stored CSN
pair): with a stored CSN `theirs`, the check fails exactly when the inbound
CSN is lower than (resp. equal to) the stored value and otherwise replaces
the stored value; with no stored CSN, it fails exactly when the overflow
number is non-zero (with the "First message from <peer>" reason) and
otherwise stores the inbound CSN.  A validator `Fail` surfaces from
`handle_message` as `InvalidNonce`. -/
theorem C1_csn_check (csn_pair : CsnPair) (pid : String) (nonce : Nonce) :
    (∀ previous, csn_pair.theirs = some previous →
      (Csn.lt nonce.csn previous →
        csnCheck csn_pair pid nonce = (some (pid ++ " CSN is lower than last time"), csn_pair)) ∧
      (nonce.csn = previous →
        csnCheck csn_pair pid nonce = (some (pid ++ " CSN hasn\x27t been incremented"), csn_pair)) ∧
      (¬ Csn.lt nonce.csn previous → nonce.csn ≠ previous →
        csnCheck csn_pair pid nonce = (none, { csn_pair with theirs := some nonce.csn }))) ∧
    (csn_pair.theirs = none →
      (nonce.csn.overflow ≠ 0 →
        csnCheck csn_pair pid nonce =
          (some ("First message from " ++ pid ++ " must have set the overflow number to 0"),
            csn_pair)) ∧
      (nonce.csn.overflow = 0 →
        csnCheck csn_pair pid nonce = (none, { csn_pair with theirs := some nonce.csn }))) ∧
    (∀ (s : Signaling) (bbox : BBox) (ent : Entropy) (reason : String) (s1 : Signaling),
      s.validate_nonce bbox.nonce = (ValidationResult.Fail reason, s1) →
      s.handle_message bbox ent =
        (HandleOutcome.err (SignalingError.InvalidNonce reason), s1, ent)) := by
  refine ⟨?_, ?_, ?_⟩
  · intro previous hprev
    refine ⟨fun h => ?_, fun h => ?_, fun h1 h2 => ?_⟩
    · simp [csnCheck, hprev, h]
    · subst h
      simp [csnCheck, hprev, Csn.lt]
    · simp [csnCheck, hprev, h1, h2]
  · intro hnone
    refine ⟨fun h => ?_, fun h => ?_⟩
    · simp [csnCheck, hnone, h]
    · simp [csnCheck, hnone, h]
  · exact fun s bbox ent reason s1 h => validate_fail_handle_message s bbox ent reason s1 h

/-- Witness for C1 at concrete CSN pairs: an equal CSN is rejected, and a
first message with non-zero overflow number is rejected with the exact
"First message from server" reason. -/
theorem C1_csn_check_witness :
    csnCheck ⟨⟨0, 0⟩, some ⟨0, 5⟩⟩ "server" ⟨⟨[]⟩, ⟨0⟩, ⟨0⟩, ⟨0, 5⟩⟩ =
      (some "server CSN hasn\x27t been incremented", ⟨⟨0, 0⟩, some ⟨0, 5⟩⟩) ∧
    csnCheck ⟨⟨0, 0⟩, none⟩ "server" ⟨⟨[]⟩, ⟨0⟩, ⟨0⟩, ⟨1, 3⟩⟩ =
      (some "First message from server must have set the overflow number to 0", ⟨⟨0, 0⟩, none⟩) :=
  ⟨((C1_csn_check ⟨⟨0, 0⟩, some ⟨0, 5⟩⟩ "server" ⟨⟨[]⟩, ⟨0⟩, ⟨0⟩, ⟨0, 5⟩⟩).1 ⟨0, 5⟩ rfl).2.1 rfl,
   ((C1_csn_check ⟨⟨0, 0⟩, none⟩ "server" ⟨⟨[]⟩, ⟨0⟩, ⟨0⟩, ⟨1, 3⟩⟩).2.1 rfl).1 (by decide)⟩

/-- C5: cookie check of the nonce validator.  For every peer (any stored
cookie pair): with no stored cookie, validation fails with the "identical to
our own cookie" reason exactly when the inbound cookie equals ours, and
otherwise stores the inbound cookie as theirs; with a stored cookie,
validation fails exactly when the inbound cookie differs from the stored one.
A validator `Fail` surfaces from `handle_message` as `InvalidNonce`. -/
theorem C5_cookie_check (cookie_pair : CookiePair) (pid : String) (nonce : Nonce) :
    (cookie_pair.theirs = none →
      (nonce.cookie = cookie_pair.ours →
        cookieCheck cookie_pair pid nonce =
          (some ("Cookie from " ++ pid ++ " is identical to our own cookie"), cookie_pair)) ∧
      (nonce.cookie ≠ cookie_pair.ours →
        cookieCheck cookie_pair pid nonce =
          (none, { cookie_pair with theirs := some nonce.cookie }))) ∧
    (∀ stored, cookie_pair.theirs = some stored →
      (nonce.cookie ≠ stored →
        cookieCheck cookie_pair pid nonce =
          (some ("Cookie from " ++ pid ++ " has changed"), cookie_pair)) ∧
      (nonce.cookie = stored →
        cookieCheck cookie_pair pid nonce = (none, cookie_pair))) ∧
    (∀ (s : Signaling) (bbox : BBox) (ent : Entropy) (reason : String) (s1 : Signaling),
      s.validate_nonce bbox.nonce = (ValidationResult.Fail reason, s1) →
      s.handle_message bbox ent =
        (HandleOutcome.err (SignalingError.InvalidNonce reason), s1, ent)) := by
  refine ⟨?_, ?_, ?_⟩
  · intro hnone
    refine ⟨fun h => ?_, fun h => ?_⟩
    · simp [cookieCheck, hnone, h]
    · simp [cookieCheck, hnone, h]
  · intro stored hsome
    refine ⟨fun h => ?_, fun h => ?_⟩
    · simp [cookieCheck, hsome, h]
    · simp [cookieCheck, hsome, h]
  · exact fun s bbox ent reason s1 h => validate_fail_handle_message s bbox ent reason s1 h

/-- Witness for C5 at concrete cookie pairs: a first frame carrying our own
cookie is rejected with the exact "identical to our own cookie" reason for
the server peer, and a changed cookie is rejected later. -/
theorem C5_cookie_check_witness :
    cookieCheck ⟨⟨List.replicate 16 1⟩, none⟩ "server" ⟨⟨List.replicate 16 1⟩, ⟨0⟩, ⟨0⟩, ⟨0, 1⟩⟩ =
      (some "Cookie from server is identical to our own cookie", ⟨⟨List.replicate 16 1⟩, none⟩) ∧
    cookieCheck ⟨⟨List.replicate 16 1⟩, some ⟨List.replicate 16 2⟩⟩ "server"
        ⟨⟨List.replicate 16 3⟩, ⟨0⟩, ⟨0⟩, ⟨0, 1⟩⟩ =
      (some "Cookie from server has changed", ⟨⟨List.replicate 16 1⟩, some ⟨List.replicate 16 2⟩⟩) :=
  ⟨((C5_cookie_check ⟨⟨List.replicate 16 1⟩, none⟩ "server"
      ⟨⟨List.replicate 16 1⟩, ⟨0⟩, ⟨0⟩, ⟨0, 1⟩⟩).1 rfl).1 rfl,
   ((C5_cookie_check ⟨⟨List.replicate 16 1⟩, some ⟨List.replicate 16 2⟩⟩ "server"
      ⟨⟨List.replicate 16 3⟩, ⟨0⟩, ⟨0⟩, ⟨0, 1⟩⟩).2.1 ⟨List.replicate 16 2⟩ rfl).1 (by decide)⟩

/-- C6: destination check.  A fresh initiator (identity `Unknown`, server
sub-state `New`) rejects every frame with destination 0x01 via
`handle_message` with the exact `InvalidNonce("Bad destination: ...")` error
and an unchanged state; in general, whenever the identity-assignment rule
does not apply and the destination differs from the address of our current
identity, the validator fails with the "Bad destination" reason. -/
theorem C6_bad_destination :
    (∀ (pk : KeyStore) (tok : AuthToken) (sc : Cookie) (scsn : Csn) (body : Body)
        (n : Nonce) (ent : Entropy), n.destination = ⟨0x01⟩ →
      (Signaling.new_initiator pk tok sc scsn).handle_message ⟨body, n⟩ ent =
        (HandleOutcome.err (SignalingError.InvalidNonce
          "Bad destination: Address(0x01) (our identity is Unknown)"),
          Signaling.new_initiator pk tok sc scsn, ent)) ∧
    (∀ (s : Signaling) (n : Nonce),
      ¬ (s.identity = ClientIdentity.Unknown ∧ n.destination.is_unknown = false
          ∧ s.server.handshake_state ≠ ServerHandshakeState.New) →
      n.destination ≠ s.identity.toAddress →
      s.validate_nonce n = (ValidationResult.Fail (badDestMsg n s.identity), s)) := by
  constructor
  · intro pk tok sc scsn body n ent hdst
    have hmsg : badDestMsg n ClientIdentity.Unknown =
        "Bad destination: Address(0x01) (our identity is Unknown)" := by
      unfold badDestMsg
      rw [hdst]
      rfl
    have hv : (Signaling.new_initiator pk tok sc scsn).validate_nonce n =
        (ValidationResult.Fail (badDestMsg n ClientIdentity.Unknown),
          Signaling.new_initiator pk tok sc scsn) := by
      unfold Signaling.validate_nonce
      simp [Signaling.new_initiator, ServerContext.new, Signaling.identity,
        Signaling.server, hdst, Address.is_unknown, ClientIdentity.toAddress]
    rw [validate_fail_handle_message _ _ _ _ _ hv, hmsg]
  · intro s n hna hdst
    unfold Signaling.validate_nonce
    rw [if_neg hna]
    simp [hdst]

/-- Witness for C6 at a concrete fresh initiator and a concrete frame with
destination 0x01, and for the general clause at a concrete state. -/
theorem C6_bad_destination_witness :
    (Signaling.new_initiator ⟨1, 2⟩ 9 ⟨List.replicate 16 0⟩ ⟨0, 0⟩).handle_message
        ⟨Body.plain (Message.ServerHello 4), ⟨⟨List.replicate 16 1⟩, ⟨0⟩, ⟨1⟩, ⟨0, 1⟩⟩⟩ ⟨[], []⟩ =
      (HandleOutcome.err (SignalingError.InvalidNonce
        "Bad destination: Address(0x01) (our identity is Unknown)"),
        Signaling.new_initiator ⟨1, 2⟩ 9 ⟨List.replicate 16 0⟩ ⟨0, 0⟩, ⟨[], []⟩) ∧
    (Signaling.new_initiator ⟨1, 2⟩ 9 ⟨List.replicate 16 0⟩ ⟨0, 0⟩).validate_nonce
        ⟨⟨List.replicate 16 1⟩, ⟨0⟩, ⟨2⟩, ⟨0, 1⟩⟩ =
      (ValidationResult.Fail (badDestMsg ⟨⟨List.replicate 16 1⟩, ⟨0⟩, ⟨2⟩, ⟨0, 1⟩⟩
        ClientIdentity.Unknown),
        Signaling.new_initiator ⟨1, 2⟩ 9 ⟨List.replicate 16 0⟩ ⟨0, 0⟩) :=
  ⟨C6_bad_destination.1 ⟨1, 2⟩ 9 ⟨List.replicate 16 0⟩ ⟨0, 0⟩
      (Body.plain (Message.ServerHello 4)) ⟨⟨List.replicate 16 1⟩, ⟨0⟩, ⟨1⟩, ⟨0, 1⟩⟩ ⟨[], []⟩ rfl,
   C6_bad_destination.2 (Signaling.new_initiator ⟨1, 2⟩ 9 ⟨List.replicate 16 0⟩ ⟨0, 0⟩)
      ⟨⟨List.replicate 16 1⟩, ⟨0⟩, ⟨2⟩, ⟨0, 1⟩⟩ (by decide) (by decide)⟩

/-- C7: for a responder with an assigned identity, a frame from source 0x01
(the initiator) that passes the destination and source-permission checks hits
the `0x01 => unimplemented!()` arm of the peer lookup in
`Signaling::validate_nonce` — the source panics instead of resolving the
fixed `InitiatorContext` (refuting the claimed totality of the lookup). -/
theorem C7_initiator_source_lookup_panics (sst : SignalingState) (pk : KeyStore)
    (sk : Option KeyStore) (tok : Option AuthToken) (srv : ServerContext)
    (ini : InitiatorContext) (c : Cookie) (csn : Csn) (b : Nat) :
    (Signaling.Responder ⟨sst, pk, sk, tok, ClientIdentity.Responder b, srv, ini⟩).validate_nonce
        ⟨c, ⟨0x01⟩, ⟨b⟩, csn⟩ =
      (ValidationResult.Panicked "not implemented",
        Signaling.Responder ⟨sst, pk, sk, tok, ClientIdentity.Responder b, srv, ini⟩) := by
  unfold Signaling.validate_nonce
  simp [Signaling.identity, Signaling.server, ClientIdentity.toAddress]

/-! ## Claim theorems: state machine -/

/-- C4 counterexample: a server-auth whose `responders` list is `[0x01, 0x01]`
contains a repeated address, yet `InitiatorSignaling::handle_server_auth`
returns the "may not contain addresses <0x02" error, not the duplicates
error claimed. -/
theorem C4_duplicates_counterexample :
    InitiatorSignaling.handle_server_auth
        ⟨SignalingState.ServerHandshake, ⟨1, 2⟩, none, ClientIdentity.Initiator,
          ServerContext.new ⟨List.replicate 16 1⟩ ⟨0, 1⟩, [], none⟩
        ⟨⟨List.replicate 16 1⟩, none, some [⟨1⟩, ⟨1⟩], none⟩ ⟨[], []⟩ =
      (Except.error (SignalingError.InvalidMessage
        "`responders` field in server-auth message may not contain addresses <0x02"),
        ⟨SignalingState.ServerHandshake, ⟨1, 2⟩, none, ClientIdentity.Initiator,
          ServerContext.new ⟨List.replicate 16 1⟩ ⟨0, 1⟩, [], none⟩, ⟨[], []⟩) ∧
    (InitiatorSignaling.handle_server_auth
        ⟨SignalingState.ServerHandshake, ⟨1, 2⟩, none, ClientIdentity.Initiator,
          ServerContext.new ⟨List.replicate 16 1⟩ ⟨0, 1⟩, [], none⟩
        ⟨⟨List.replicate 16 1⟩, none, some [⟨1⟩, ⟨1⟩], none⟩ ⟨[], []⟩).1 ≠
      Except.error (SignalingError.InvalidMessage
        "`responders` field in server-auth message may not contain duplicates") := by
  constructor
  · rfl
  · decide

/-- C4 (amended): for an initiator handling a server-auth whose
`initiator_connected` field is absent and whose `responders` list lies in
0x02..0xff but contains a repeated address,
`InitiatorSignaling::handle_server_auth` returns the duplicates
`InvalidMessage` error and leaves the responders map (and all other state)
unchanged. -/
theorem C4_duplicates_amended (i : InitiatorSignaling) (msg : ServerAuth) (ent : Entropy)
    (rs : List Address)
    (hresp : msg.responders = some rs)
    (hic : msg.initiator_connected = none)
    (hrange : ∀ a ∈ rs, 2 ≤ a.val)
    (hdup : ¬ rs.Nodup) :
    InitiatorSignaling.handle_server_auth i msg ent =
      (Except.error (SignalingError.InvalidMessage
        "`responders` field in server-auth message may not contain duplicates"), i, ent) := by
  have hmem : ¬ ((⟨0x00⟩ : Address) ∈ rs.dedup ∨ (⟨0x01⟩ : Address) ∈ rs.dedup) := by
    rintro (h | h)
    · have := hrange _ (List.mem_dedup.mp h)
      simp at this
    · have := hrange _ (List.mem_dedup.mp h)
      simp at this
  have hlen : rs.length ≠ rs.dedup.length := by
    intro he
    exact hdup (List.dedup_eq_self.mp ((rs.dedup_sublist).eq_of_length he.symm))
  unfold InitiatorSignaling.handle_server_auth
  rw [hic, hresp]
  simp only [Option.isSome_none, Bool.false_eq_true, if_false]
  rw [if_neg hmem, if_pos hlen]

/-- Witness for the amended C4 at the spec's concrete scenario
(`responders = [0x02, 0x03, 0x03]`). -/
theorem C4_duplicates_amended_witness :
    InitiatorSignaling.handle_server_auth
        ⟨SignalingState.ServerHandshake, ⟨1, 2⟩, none, ClientIdentity.Initiator,
          ServerContext.new ⟨List.replicate 16 1⟩ ⟨0, 1⟩, [], none⟩
        ⟨⟨List.replicate 16 1⟩, none, some [⟨2⟩, ⟨3⟩, ⟨3⟩], none⟩ ⟨[], []⟩ =
      (Except.error (SignalingError.InvalidMessage
        "`responders` field in server-auth message may not contain duplicates"),
        ⟨SignalingState.ServerHandshake, ⟨1, 2⟩, none, ClientIdentity.Initiator,
          ServerContext.new ⟨List.replicate 16 1⟩ ⟨0, 1⟩, [], none⟩, ⟨[], []⟩) :=
  C4_duplicates_amended
    ⟨SignalingState.ServerHandshake, ⟨1, 2⟩, none, ClientIdentity.Initiator,
      ServerContext.new ⟨List.replicate 16 1⟩ ⟨0, 1⟩, [], none⟩
    ⟨⟨List.replicate 16 1⟩, none, some [⟨2⟩, ⟨3⟩, ⟨3⟩], none⟩ ⟨[], []⟩
    [⟨2⟩, ⟨3⟩, ⟨3⟩] rfl rfl (by decide) (by decide)

/-- C10: `handle_message` is not atomic on error — on a frame whose nonce
validates but whose body fails to decode, the error surfaces while the
validator's state updates (stored `theirs` CSN and cookie of the server peer)
persist; the pre-state had neither stored. -/
theorem C10_nonatomic_error :
    Signaling.handle_message
        (Signaling.new_initiator ⟨100, 101⟩ 999 ⟨List.replicate 16 1⟩ ⟨0, 10⟩)
        ⟨Body.secretEnc (Message.ServerHello 42) 7 ⟨⟨List.replicate 16 2⟩, ⟨0⟩, ⟨0⟩, ⟨0, 5⟩⟩,
          ⟨⟨List.replicate 16 2⟩, ⟨0⟩, ⟨0⟩, ⟨0, 5⟩⟩⟩ ⟨[], []⟩ =
      (HandleOutcome.err (SignalingError.Decode "cannot decode message payload"),
        Signaling.Initiator
          { signaling_state := SignalingState.ServerHandshake
            permanent_key := ⟨100, 101⟩
            auth_token := some 999
            identity := ClientIdentity.Unknown
            server := { handshake_state := ServerHandshakeState.New
                        permanent_key := none
                        session_key := none
                        cookie_pair := ⟨⟨List.replicate 16 1⟩, some ⟨List.replicate 16 2⟩⟩
                        csn_pair := ⟨⟨0, 10⟩, some ⟨0, 5⟩⟩ }
            responders := []
            responder := none }, ⟨[], []⟩) ∧
    (Signaling.new_initiator ⟨100, 101⟩ 999 ⟨List.replicate 16 1⟩ ⟨0, 10⟩).server.csn_pair.theirs
      = none ∧
    (Signaling.new_initiator ⟨100, 101⟩ 999 ⟨List.replicate 16 1⟩ ⟨0, 10⟩).server.cookie_pair.theirs
      = none := by
  exact ⟨by rfl, rfl, rfl⟩

/-- C2: a responder in server sub-state `ClientInfoSent` handling a
server-auth with `initiator_connected = true` and a matching `your_cookie`
replies with a `token` message (present exactly when an auth token is held)
secret-key encrypted with the token and carrying our permanent public key,
followed by a `key` message public-key encrypted from our permanent key to
the initiator's permanent key and carrying the freshly generated session
public key; the initiator sub-state becomes `KeySent`, the server sub-state
`Done` and the signaling state `PeerHandshake`. -/
theorem C2_responder_server_auth (r : ResponderSignaling) (msg : ServerAuth)
    (nonce : Nonce) (ent : Entropy) (sk : KeyStore) (rest : List KeyStore) (c1 c2 : Csn)
    (hstate : r.server.handshake_state = ServerHandshakeState.ClientInfoSent)
    (hsig : r.signaling_state = SignalingState.ServerHandshake)
    (hid : r.identity ≠ ClientIdentity.Unknown)
    (hck : msg.your_cookie = r.server.cookie_pair.ours)
    (hresp : msg.responders = none)
    (hic : msg.initiator_connected = some true)
    (hsess : r.session_key = none)
    (hdraw : drawSessionKey ent.keys r.permanent_key = some (sk, rest))
    (hc1 : r.initiator.csn_pair.ours.increment = some c1)
    (hc2 : c1.increment = some c2) :
    (Signaling.Responder r).handle_server_message ⟨Message.ServerAuth msg, nonce⟩ ent =
      (HandleOutcome.ok
        ((match r.auth_token with
          | some token =>
            [HandleAction.Reply (OBox.encrypt_token
              ⟨Message.Token r.permanent_key.public_key,
               ⟨r.initiator.cookie_pair.ours, r.identity.toAddress, ⟨0x01⟩, c1⟩⟩ token)]
          | none => []) ++
         [HandleAction.Reply (OBox.encrypt
            ⟨Message.Key sk.public_key,
             ⟨r.initiator.cookie_pair.ours, r.identity.toAddress, ⟨0x01⟩,
              match r.auth_token with | some _ => c2 | none => c1⟩⟩
            r.permanent_key r.initiator.permanent_key)]),
       Signaling.Responder
         { r with
             session_key := some sk
             signaling_state := SignalingState.PeerHandshake
             server := { r.server with handshake_state := ServerHandshakeState.Done }
             initiator := { r.initiator with
               handshake_state := InitiatorHandshakeState.KeySent
               csn_pair := { r.initiator.csn_pair with
                 ours := match r.auth_token with | some _ => c2 | none => c1 } } },
       { ent with keys := rest }) := by
  obtain ⟨sst, pk, skey, tok, idn, srv, ini⟩ := r
  obtain ⟨ic, ik, isk, icp, icsnp⟩ := ini
  simp only at hstate hsig hck hsess hdraw hc1 hid
  subst hsig hsess
  obtain ⟨shs, spk, ssk, scp, scsnp⟩ := srv
  simp only at hstate
  subst hstate
  cases tok with
  | none =>
    simp [Signaling.handle_server_message, Signaling.handle_server_auth,
      Signaling.identity, Signaling.server, Signaling.setServer,
      Signaling.set_signaling_state, Signaling.setSignalingStateRaw,
      Signaling.signaling_state, hid, hck,
      ResponderSignaling.handle_server_auth, hresp, hic,
      ResponderSignaling.generate_session_key, hdraw,
      ResponderSignaling.send_key, hc1, hc2, OBox.encrypt, OBox.encrypt_token,
      KeyStore.public_key, Identity.toAddress]
  | some t =>
    simp [Signaling.handle_server_message, Signaling.handle_server_auth,
      Signaling.identity, Signaling.server, Signaling.setServer,
      Signaling.set_signaling_state, Signaling.setSignalingStateRaw,
      Signaling.signaling_state, hid, hck,
      ResponderSignaling.handle_server_auth, hresp, hic,
      ResponderSignaling.send_token,
      ResponderSignaling.generate_session_key, hdraw,
      ResponderSignaling.send_key, hc1, hc2, OBox.encrypt, OBox.encrypt_token,
      KeyStore.public_key, Identity.toAddress]

/-- Witness for C2 at a concrete responder with an auth token, reproducing the
spec's "responder happy handshake with token" scenario. -/
theorem C2_responder_server_auth_witness :
    (Signaling.Responder
      { signaling_state := SignalingState.ServerHandshake
        permanent_key := ⟨100, 101⟩
        session_key := none
        auth_token := some 888
        identity := ClientIdentity.Responder 7
        server := { handshake_state := ServerHandshakeState.ClientInfoSent
                    permanent_key := some 201
                    session_key := none
                    cookie_pair := ⟨⟨List.replicate 16 1⟩, some ⟨List.replicate 16 2⟩⟩
                    csn_pair := ⟨⟨0, 10⟩, none⟩ }
        initiator := InitiatorContext.new 77 ⟨List.replicate 16 3⟩ ⟨0, 20⟩ }).handle_server_message
        ⟨Message.ServerAuth ⟨⟨List.replicate 16 1⟩, none, none, some true⟩,
          ⟨⟨List.replicate 16 2⟩, ⟨0⟩, ⟨7⟩, ⟨0, 33⟩⟩⟩ ⟨[], [⟨50, 51⟩]⟩ =
      (HandleOutcome.ok
        [HandleAction.Reply (OBox.encrypt_token
          ⟨Message.Token 101, ⟨⟨List.replicate 16 3⟩, ⟨7⟩, ⟨1⟩, ⟨0, 21⟩⟩⟩ 888),
         HandleAction.Reply (OBox.encrypt
          ⟨Message.Key 51, ⟨⟨List.replicate 16 3⟩, ⟨7⟩, ⟨1⟩, ⟨0, 22⟩⟩⟩ ⟨100, 101⟩ 77)],
       Signaling.Responder
        { signaling_state := SignalingState.PeerHandshake
          permanent_key := ⟨100, 101⟩
          session_key := some ⟨50, 51⟩
          auth_token := some 888
          identity := ClientIdentity.Responder 7
          server := { handshake_state := ServerHandshakeState.Done
                      permanent_key := some 201
                      session_key := none
                      cookie_pair := ⟨⟨List.replicate 16 1⟩, some ⟨List.replicate 16 2⟩⟩
                      csn_pair := ⟨⟨0, 10⟩, none⟩ }
          initiator := { handshake_state := InitiatorHandshakeState.KeySent
                         permanent_key := 77
                         session_key := none
                         cookie_pair := ⟨⟨List.replicate 16 3⟩, none⟩
                         csn_pair := ⟨⟨0, 22⟩, none⟩ } },
       ⟨[], []⟩) := by
  have h := C2_responder_server_auth
    { signaling_state := SignalingState.ServerHandshake
      permanent_key := ⟨100, 101⟩
      session_key := none
      auth_token := some 888
      identity := ClientIdentity.Responder 7
      server := { handshake_state := ServerHandshakeState.ClientInfoSent
                  permanent_key := some 201
                  session_key := none
                  cookie_pair := ⟨⟨List.replicate 16 1⟩, some ⟨List.replicate 16 2⟩⟩
                  csn_pair := ⟨⟨0, 10⟩, none⟩ }
      initiator := InitiatorContext.new 77 ⟨List.replicate 16 3⟩ ⟨0, 20⟩ }
    ⟨⟨List.replicate 16 1⟩, none, none, some true⟩
    ⟨⟨List.replicate 16 2⟩, ⟨0⟩, ⟨7⟩, ⟨0, 33⟩⟩ ⟨[], [⟨50, 51⟩]⟩ ⟨50, 51⟩ [] ⟨0, 21⟩ ⟨0, 22⟩
    rfl rfl (by decide) rfl rfl rfl rfl (by decide) (by decide) (by decide)
  rw [h]
  rfl

/-- C3: processing a plaintext server-hello as the first server frame in
state (`ServerHandshake`, server sub-state `New`) records the server
permanent key and replies with exactly `[client-auth]` for an initiator and
`[client-hello, client-auth]` for a responder; the client-hello is plaintext
and carries our permanent public key, the client-auth is encrypted to the
just-recorded server permanent key with `your_cookie` equal to the server
cookie of that frame, `subprotocols = [SUBPROTOCOL]` and `ping_interval = 0`;
the server sub-state advances to `ClientInfoSent`. -/
theorem C3_server_hello (pk : KeyStore) (tok : AuthToken) (otok : Option AuthToken)
    (ipk : Nat) (sc ic : Cookie) (scsn icsn : Csn) (key : Nat)
    (n : Nonce) (ent : Entropy) (c1 c2 : Csn)
    (hsrc : n.source = ⟨0x00⟩) (hdst : n.destination = ⟨0x00⟩)
    (hovfl : n.csn.overflow = 0) (hcookie : n.cookie ≠ sc)
    (hc1 : scsn.increment = some c1) (hc2 : c1.increment = some c2) :
    (Signaling.new_initiator pk tok sc scsn).handle_message
        ⟨Body.plain (Message.ServerHello key), n⟩ ent =
      (HandleOutcome.ok
        [HandleAction.Reply (OBox.encrypt
          ⟨Message.ClientAuth ⟨n.cookie, [SUBPROTOCOL], 0, none⟩, ⟨sc, ⟨0x00⟩, ⟨0x00⟩, c1⟩⟩
          pk key)],
       Signaling.Initiator
         { signaling_state := SignalingState.ServerHandshake
           permanent_key := pk
           auth_token := some tok
           identity := ClientIdentity.Unknown
           server := { handshake_state := ServerHandshakeState.ClientInfoSent
                       permanent_key := some key
                       session_key := none
                       cookie_pair := ⟨sc, some n.cookie⟩
                       csn_pair := ⟨c1, some n.csn⟩ }
           responders := []
           responder := none }, ent) ∧
    (Signaling.new_responder pk ipk otok sc scsn ic icsn).handle_message
        ⟨Body.plain (Message.ServerHello key), n⟩ ent =
      (HandleOutcome.ok
        [HandleAction.Reply (OBox.encode
          ⟨Message.ClientHello pk.public_key, ⟨sc, ⟨0x00⟩, ⟨0x00⟩, c1⟩⟩),
         HandleAction.Reply (OBox.encrypt
          ⟨Message.ClientAuth ⟨n.cookie, [SUBPROTOCOL], 0, none⟩, ⟨sc, ⟨0x00⟩, ⟨0x00⟩, c2⟩⟩
          pk key)],
       Signaling.Responder
         { signaling_state := SignalingState.ServerHandshake
           permanent_key := pk
           session_key := none
           auth_token := otok
           identity := ClientIdentity.Unknown
           server := { handshake_state := ServerHandshakeState.ClientInfoSent
                       permanent_key := some key
                       session_key := none
                       cookie_pair := ⟨sc, some n.cookie⟩
                       csn_pair := ⟨c2, some n.csn⟩ }
           initiator := InitiatorContext.new ipk ic icsn }, ent) := by
  constructor
  · have hv : (Signaling.new_initiator pk tok sc scsn).validate_nonce n =
        (ValidationResult.Ok,
          Signaling.Initiator
            { signaling_state := SignalingState.ServerHandshake
              permanent_key := pk
              auth_token := some tok
              identity := ClientIdentity.Unknown
              server := { handshake_state := ServerHandshakeState.New
                          permanent_key := none
                          session_key := none
                          cookie_pair := ⟨sc, some n.cookie⟩
                          csn_pair := ⟨scsn, some n.csn⟩ }
              responders := []
              responder := none }) := by
      unfold Signaling.validate_nonce
      simp [Signaling.new_initiator, ServerContext.new, Signaling.identity,
        Signaling.server, Signaling.setServer, hsrc, hdst, Address.is_unknown,
        ClientIdentity.toAddress, csnCheck, cookieCheck, hovfl, hcookie]
    unfold Signaling.handle_message
    rw [hv]
    simp [Signaling.decode_msg, Signaling.server, BBox.decode,
      Signaling.signaling_state, Signaling.handle_server_message,
      Signaling.handle_server_hello, Signaling.setServer, Signaling.identity,
      Signaling.role, Signaling.permanent_key, hc1, hc2, OBox.encrypt, OBox.encode,
      KeyStore.public_key, Identity.toAddress, ClientIdentity.toAddress, SUBPROTOCOL]
  · have hv : (Signaling.new_responder pk ipk otok sc scsn ic icsn).validate_nonce n =
        (ValidationResult.Ok,
          Signaling.Responder
            { signaling_state := SignalingState.ServerHandshake
              permanent_key := pk
              session_key := none
              auth_token := otok
              identity := ClientIdentity.Unknown
              server := { handshake_state := ServerHandshakeState.New
                          permanent_key := none
                          session_key := none
                          cookie_pair := ⟨sc, some n.cookie⟩
                          csn_pair := ⟨scsn, some n.csn⟩ }
              initiator := InitiatorContext.new ipk ic icsn }) := by
      unfold Signaling.validate_nonce
      simp [Signaling.new_responder, ServerContext.new, Signaling.identity,
        Signaling.server, Signaling.setServer, hsrc, hdst, Address.is_unknown,
        ClientIdentity.toAddress, csnCheck, cookieCheck, hovfl, hcookie]
    unfold Signaling.handle_message
    rw [hv]
    simp [Signaling.decode_msg, Signaling.server, BBox.decode,
      Signaling.signaling_state, Signaling.handle_server_message,
      Signaling.handle_server_hello, Signaling.setServer, Signaling.identity,
      Signaling.role, Signaling.permanent_key, hc1, hc2, OBox.encrypt, OBox.encode,
      KeyStore.public_key, Identity.toAddress, ClientIdentity.toAddress, SUBPROTOCOL]

/-- Witness for C3 at concrete keys, cookies and CSNs, reproducing the
spec's initiator and responder server-hello reply scenarios. -/
theorem C3_server_hello_witness :
    (Signaling.new_initiator ⟨100, 101⟩ 999 ⟨List.replicate 16 1⟩ ⟨0, 10⟩).handle_message
        ⟨Body.plain (Message.ServerHello 42), ⟨⟨List.replicate 16 2⟩, ⟨0⟩, ⟨0⟩, ⟨0, 5⟩⟩⟩
        ⟨[], []⟩ =
      (HandleOutcome.ok
        [HandleAction.Reply (OBox.encrypt
          ⟨Message.ClientAuth ⟨⟨List.replicate 16 2⟩, [SUBPROTOCOL], 0, none⟩,
            ⟨⟨List.replicate 16 1⟩, ⟨0⟩, ⟨0⟩, ⟨0, 11⟩⟩⟩ ⟨100, 101⟩ 42)],
       Signaling.Initiator
         { signaling_state := SignalingState.ServerHandshake
           permanent_key := ⟨100, 101⟩
           auth_token := some 999
           identity := ClientIdentity.Unknown
           server := { handshake_state := ServerHandshakeState.ClientInfoSent
                       permanent_key := some 42
                       session_key := none
                       cookie_pair := ⟨⟨List.replicate 16 1⟩, some ⟨List.replicate 16 2⟩⟩
                       csn_pair := ⟨⟨0, 11⟩, some ⟨0, 5⟩⟩ }
           responders := []
           responder := none }, ⟨[], []⟩) ∧
    (Signaling.new_responder ⟨100, 101⟩ 77 (some 888) ⟨List.replicate 16 1⟩ ⟨0, 10⟩
        ⟨List.replicate 16 3⟩ ⟨0, 20⟩).handle_message
        ⟨Body.plain (Message.ServerHello 42), ⟨⟨List.replicate 16 2⟩, ⟨0⟩, ⟨0⟩, ⟨0, 5⟩⟩⟩
        ⟨[], []⟩ =
      (HandleOutcome.ok
        [HandleAction.Reply (OBox.encode
          ⟨Message.ClientHello 101, ⟨⟨List.replicate 16 1⟩, ⟨0⟩, ⟨0⟩, ⟨0, 11⟩⟩⟩),
         HandleAction.Reply (OBox.encrypt
          ⟨Message.ClientAuth ⟨⟨List.replicate 16 2⟩, [SUBPROTOCOL], 0, none⟩,
            ⟨⟨List.replicate 16 1⟩, ⟨0⟩, ⟨0⟩, ⟨0, 12⟩⟩⟩ ⟨100, 101⟩ 42)],
       Signaling.Responder
         { signaling_state := SignalingState.ServerHandshake
           permanent_key := ⟨100, 101⟩
           session_key := none
           auth_token := some 888
           identity := ClientIdentity.Unknown
           server := { handshake_state := ServerHandshakeState.ClientInfoSent
                       permanent_key := some 42
                       session_key := none
                       cookie_pair := ⟨⟨List.replicate 16 1⟩, some ⟨List.replicate 16 2⟩⟩
                       csn_pair := ⟨⟨0, 12⟩, some ⟨0, 5⟩⟩ }
           initiator := InitiatorContext.new 77 ⟨List.replicate 16 3⟩ ⟨0, 20⟩ },
       ⟨[], []⟩) := by
  have h := C3_server_hello ⟨100, 101⟩ 999 (some 888) 77 ⟨List.replicate 16 1⟩
    ⟨List.replicate 16 3⟩ ⟨0, 10⟩ ⟨0, 20⟩ 42 ⟨⟨List.replicate 16 2⟩, ⟨0⟩, ⟨0⟩, ⟨0, 5⟩⟩
    ⟨[], []⟩ ⟨0, 11⟩ ⟨0, 12⟩ rfl rfl rfl (by decide) (by decide) (by decide)
  exact h

end Salty
